import Mathlib

/-!
Verification of the simulation core of the Stauchdruckpresse Simulator
(`Stauchdruckpresse Simulator/main.py`).

The embedding models the `Logic` class of the source: its mutable fields,
the event handlers `set_material_data`, `set_test_type`, `calibrate_machine`,
`start_test`, `pause_test`, `resume_test`, `stop_test`, `reset_state`, and the
two timer-driven steppers `run_compression_simulation_step` and
`run_tensile_simulation_step`.  Python floats are idealised as real numbers
(`x ** 0.5` becomes `Real.sqrt`); each Lean definition mirrors the
corresponding lines of `main.py`.
-/

noncomputable section

namespace Simulators

/-- `SCALE_FACTOR = 2` (main.py line 11). -/
def SCALE_FACTOR : ℝ := 2

/-- `PLATTEN_HEIGHT = 20` (main.py line 22). -/
def PLATTEN_HEIGHT : ℝ := 20

/-- `MACHINE_Y_TOP = 300` (main.py line 24). -/
def MACHINE_Y_TOP : ℝ := 300

/-- `MACHINE_Y_BOTTOM = 600` (main.py line 25). -/
def MACHINE_Y_BOTTOM : ℝ := 600

/-- One entry of the `MATERIALS` catalog (main.py lines 14-18).  Only the
fields the simulation logic reads are modelled: `E`, `sigma_y` and the three
dimensions `dims[0]`, `dims[1]`, `dims[2]` (the `color` and `type` entries are
purely visual). -/
structure MaterialData where
  E : ℝ
  sigma_y : ℝ
  dims0 : ℝ
  dims1 : ℝ
  dims2 : ℝ

/-- The `"Brick"` catalog entry: `E=20, sigma_y=5, dims=(80, 40, 40)`. -/
def Brick : MaterialData := ⟨20, 5, 80, 40, 40⟩

/-- The `"Packaging"` catalog entry: `E=0.5, sigma_y=0.2, dims=(60, 60, 60)`. -/
def Packaging : MaterialData := ⟨0.5, 0.2, 60, 60, 60⟩

/-- The test kind, `self.test_type` in the source (strings `"Compression"` /
`"Tensile"`). -/
inductive TestType where
  | Compression
  | Tensile
deriving DecidableEq, Repr

/-- The observable session status.  `Running`, `Paused` and `Finished` are
exactly the `set_status` notifications emitted by `Logic` (main.py lines 139,
153, 159, 193, 249); `Idle` is the initial state and the state after a
`full_reset` notification (the GUI's `full_reset` handler, line 790, restores
the initial idle presentation: buttons disabled, labels zeroed). -/
inductive Status where
  | Idle
  | Running
  | Paused
  | Finished
deriving DecidableEq, Repr

/-- The mutable state of the `Logic` class (main.py lines 50-76) restricted to
the fields the simulation core reads or writes.  `is_running` models
`self.is_running_event` (a `threading.Event` used as a plain boolean flag);
`status` tracks the last emitted `set_status` notification as described at
`Status`. -/
@[ext]
structure Logic where
  is_running : Bool
  status : Status
  selected_material_data : Option MaterialData
  test_type : TestType
  current_deformation : ℝ
  current_force : ℝ
  peak_force : ℝ
  peak_stress : ℝ
  original_height : ℝ
  original_width : ℝ
  original_depth : ℝ
  current_crosshead_y : ℝ

/-- `self.initial_crosshead_y = (MACHINE_Y_TOP + 150) * SCALE_FACTOR`
(main.py line 60). -/
def initial_crosshead_y : ℝ := (MACHINE_Y_TOP + 150) * SCALE_FACTOR

/-- `self.initial_platen_y = MACHINE_Y_BOTTOM * SCALE_FACTOR`
(main.py line 61). -/
def initial_platen_y : ℝ := MACHINE_Y_BOTTOM * SCALE_FACTOR

/-- The state built by `Logic.__init__` (main.py lines 50-76): no material
selected, test type `"Compression"`, all derived quantities zero. -/
def initLogic : Logic where
  is_running := false
  status := .Idle
  selected_material_data := none
  test_type := .Compression
  current_deformation := 0
  current_force := 0
  peak_force := 0
  peak_stress := 0
  original_height := 0
  original_width := 0
  original_depth := 0
  current_crosshead_y := initial_crosshead_y

/-- The `data` dictionary notified as `update_data` at the end of each stepper
call (main.py lines 226-234 and 277-285). -/
structure UpdateData where
  material_height : ℝ
  material_width : ℝ
  material_depth : ℝ
  crosshead_new_y : ℝ
  current_force : ℝ
  peak_stress : ℝ
  test_type : TestType

/-- What one stepper invocation emits: `noop` when the `is_running` guard
fails (main.py lines 184-185, 240-241; nothing is notified and nothing is
rescheduled), `finished` when the termination branch fires (completion is
notified), or an `update_data` snapshot. -/
inductive StepResult where
  | noop
  | finished
  | snapshot (d : UpdateData)

/-- `set_material_data` (main.py lines 105-107): stores the dropped
material. -/
def set_material_data (s : Logic) (m : MaterialData) : Logic :=
  { s with selected_material_data := some m }

/-- `stop_test` (main.py lines 168-171): clears the running flag (the sound
calls are presentation only).  No `set_status` notification is emitted. -/
def stop_test (s : Logic) : Logic :=
  { s with is_running := false }

/-- `pause_test` (main.py lines 149-154): unconditionally clears the running
flag and notifies status `"paused"`. -/
def pause_test (s : Logic) : Logic :=
  { s with is_running := false, status := .Paused }

/-- `reset_state` (main.py lines 173-181): `stop_test`, then drop the material
and zero the derived quantities, restore the crosshead, and notify
`full_reset` (which returns the observable status to idle). -/
def reset_state (s : Logic) : Logic :=
  { stop_test s with
      status := .Idle
      selected_material_data := none
      current_deformation := 0
      current_force := 0
      peak_force := 0
      peak_stress := 0
      current_crosshead_y := initial_crosshead_y }

/-- `set_test_type` (main.py lines 101-103): store the new type, then
`reset_state`. -/
def set_test_type (s : Logic) (t : TestType) : Logic :=
  reset_state { s with test_type := t }

/-- `calibrate_machine` (main.py lines 109-124): with a material selected,
reposition the crosshead according to the test type (all other notifications
are presentation only). -/
def calibrate_machine (s : Logic) : Logic :=
  match s.selected_material_data with
  | none => s
  | some mat =>
    match s.test_type with
    | .Compression =>
        { s with current_crosshead_y :=
            initial_platen_y - mat.dims1 * SCALE_FACTOR - PLATTEN_HEIGHT * SCALE_FACTOR }
    | .Tensile =>
        { s with current_crosshead_y :=
            initial_platen_y - mat.dims1 * SCALE_FACTOR }

/-- The plastic-softening cap applied to the linear stress (main.py lines
203-204 and 259-260): `if current_stress > sigma_y: current_stress = sigma_y
+ 0.1 * (current_stress - sigma_y)`. -/
def softened_stress (sigma_y stress : ℝ) : ℝ :=
  if stress > sigma_y then sigma_y + 0.1 * (stress - sigma_y) else stress

/-- `run_compression_simulation_step` (main.py lines 183-237).  Returns the
updated state together with what the call emitted.  The `none` material case
cannot arise in a run driven as in the source (the flag is only set with a
material selected or after a finished run, where the termination branch fires
first); the Python code would raise there, modelled as a no-op. -/
def run_compression_simulation_step (s : Logic) : Logic × StepResult :=
  if s.is_running = false then (s, .noop)
  else
    match s.selected_material_data with
    | none => (s, .noop)
    | some mat =>
      let E := mat.E * 1000
      let sigma_y := mat.sigma_y
      let step_deformation : ℝ := 0.5
      if s.current_deformation ≥ s.original_height - 10 then
        ({ stop_test s with status := .Finished }, .finished)
      else
        let deformation := s.current_deformation + step_deformation
        let current_strain := deformation / s.original_height
        let current_stress := softened_stress sigma_y (E * current_strain)
        let area := s.original_width * s.original_depth
        let force := current_stress * area
        let new_peak_force := if force > s.peak_force then force else s.peak_force
        let new_peak_stress := if force > s.peak_force then current_stress else s.peak_stress
        let new_height := s.original_height - deformation
        let new_dims :=
          if new_height > 0 then
            let dim_factor := Real.sqrt (s.original_height / new_height)
            (s.original_width * dim_factor, s.original_depth * dim_factor)
          else
            (s.original_width * 1.5, s.original_depth * 1.5)
        let new_crosshead_y :=
          initial_platen_y - (new_height * SCALE_FACTOR + PLATTEN_HEIGHT * SCALE_FACTOR)
        ({ s with
            current_deformation := deformation
            current_force := force
            peak_force := new_peak_force
            peak_stress := new_peak_stress
            current_crosshead_y := new_crosshead_y },
         .snapshot
           { material_height := new_height * SCALE_FACTOR
             material_width := new_dims.1 * SCALE_FACTOR
             material_depth := new_dims.2 * SCALE_FACTOR
             crosshead_new_y := new_crosshead_y
             current_force := force
             peak_stress := new_peak_stress
             test_type := s.test_type })

/-- `run_tensile_simulation_step` (main.py lines 239-288): same structure as
compression except the termination bound is `original_height * 2`, the height
grows, there is no degenerate-geometry branch, and the force uses the necked
cross-section `new_width * new_depth`. -/
def run_tensile_simulation_step (s : Logic) : Logic × StepResult :=
  if s.is_running = false then (s, .noop)
  else
    match s.selected_material_data with
    | none => (s, .noop)
    | some mat =>
      let E := mat.E * 1000
      let sigma_y := mat.sigma_y
      let step_deformation : ℝ := 0.5
      if s.current_deformation ≥ s.original_height * 2 then
        ({ stop_test s with status := .Finished }, .finished)
      else
        let deformation := s.current_deformation + step_deformation
        let current_strain := deformation / s.original_height
        let current_stress := softened_stress sigma_y (E * current_strain)
        let new_height := s.original_height + deformation
        let dim_factor := Real.sqrt (s.original_height / new_height)
        let new_width := s.original_width * dim_factor
        let new_depth := s.original_depth * dim_factor
        let area := new_width * new_depth
        let force := current_stress * area
        let new_peak_force := if force > s.peak_force then force else s.peak_force
        let new_peak_stress := if force > s.peak_force then current_stress else s.peak_stress
        let new_crosshead_y :=
          initial_platen_y - new_height * SCALE_FACTOR - PLATTEN_HEIGHT * SCALE_FACTOR
        ({ s with
            current_deformation := deformation
            current_force := force
            peak_force := new_peak_force
            peak_stress := new_peak_stress
            current_crosshead_y := new_crosshead_y },
         .snapshot
           { material_height := new_height * SCALE_FACTOR
             material_width := new_width * SCALE_FACTOR
             material_depth := new_depth * SCALE_FACTOR
             crosshead_new_y := new_crosshead_y
             current_force := force
             peak_stress := new_peak_stress
             test_type := s.test_type })

/-- One timer invocation of the stepper for the current test type
(main.py lines 144-147, 163-166, 237, 288: the scheduled callback matches
`self.test_type`). -/
def run_simulation_step (s : Logic) : Logic × StepResult :=
  match s.test_type with
  | .Compression => run_compression_simulation_step s
  | .Tensile => run_tensile_simulation_step s

/-- `start_test` (main.py lines 126-147): silently rejected while the running
flag is set or no material is selected; otherwise copy the material dimensions
into `original_*`, zero the derived quantities, set the flag, notify status
`"running"` and run the first step for the current test type. -/
def start_test (s : Logic) : Logic × StepResult :=
  if s.is_running || s.selected_material_data.isNone then (s, .noop)
  else
    match s.selected_material_data with
    | none => (s, .noop)
    | some mat =>
      run_simulation_step
        { s with
            is_running := true
            status := .Running
            original_height := mat.dims1
            original_width := mat.dims0
            original_depth := mat.dims2
            current_deformation := 0
            current_force := 0
            peak_force := 0
            peak_stress := 0 }

/-- `resume_test` (main.py lines 156-166): if the flag is clear, set it,
notify status `"running"` and run one step for the current test type. -/
def resume_test (s : Logic) : Logic × StepResult :=
  if s.is_running then (s, .noop)
  else run_simulation_step { s with is_running := true, status := .Running }

/-- Iterated timer invocations: `n` successive `run_simulation_step` calls
(the snapshots are dropped, only the state evolves). -/
def sim_steps : Nat → Logic → Logic
  | 0, s => s
  | n + 1, s => sim_steps n (run_simulation_step s).1

/-- The states reachable in the program: from the initial `Logic` state by
dropping catalog materials, changing the test type, the five control handlers
and the timer-driven stepper. -/
inductive Reachable : Logic → Prop where
  | init : Reachable initLogic
  | material {s} (m : MaterialData) :
      m = Brick ∨ m = Packaging → Reachable s → Reachable (set_material_data s m)
  | setType {s} (t : TestType) : Reachable s → Reachable (set_test_type s t)
  | calibrate {s} : Reachable s → Reachable (calibrate_machine s)
  | start {s} : Reachable s → Reachable (start_test s).1
  | pause {s} : Reachable s → Reachable (pause_test s)
  | resume {s} : Reachable s → Reachable (resume_test s).1
  | stop {s} : Reachable s → Reachable (stop_test s)
  | reset {s} : Reachable s → Reachable (reset_state s)
  | timer {s} : Reachable s → Reachable (run_simulation_step s).1

/-! ### The Brick compression run in closed form -/

/-- Closed form of the `Logic` state during a Brick compression run at
cumulative deformation `d`: for `d ≥ 0.5` the linear stress `500 * d` exceeds
`sigma_y = 5`, so the capped stress is `4.5 + 50 * d`, the force is that times
the original area `80 * 40 = 3200`, both peaks track the (increasing) current
values, and the crosshead sits at `1200 - ((40 - d) * 2 + 40) = 1080 + 2 * d`. -/
def brickRunState (d : ℝ) : Logic where
  is_running := true
  status := .Running
  selected_material_data := some Brick
  test_type := .Compression
  current_deformation := d
  current_force := (4.5 + 50 * d) * 3200
  peak_force := (4.5 + 50 * d) * 3200
  peak_stress := 4.5 + 50 * d
  original_height := 40
  original_width := 80
  original_depth := 40
  current_crosshead_y := 1080 + 2 * d

/-- Starting a test on any non-running state with Brick selected and test type
Compression yields the closed-form run state at deformation `0.5`. -/
lemma brick_start (s : Logic) (h1 : s.is_running = false)
    (h2 : s.selected_material_data = some Brick) (h3 : s.test_type = .Compression) :
    (start_test s).1 = brickRunState 0.5 := by
  simp only [start_test, h1, h2, run_simulation_step, h3, Option.isNone_some,
    Bool.or_false, Bool.false_eq_true, if_false]
  simp only [run_compression_simulation_step, Brick]
  norm_num [softened_stress]
  ext <;> simp [h2, h3, brickRunState, Brick, initial_platen_y, MACHINE_Y_BOTTOM,
    SCALE_FACTOR, PLATTEN_HEIGHT] <;> norm_num

/-- One executed compression increment on the Brick run state: deformation
advances from `d` to `d + 0.5` and the state keeps its closed form. -/
lemma brick_step (d : ℝ) (h0 : 0 ≤ d) (h1 : d < 30) :
    (run_compression_simulation_step (brickRunState d)).1 = brickRunState (d + 0.5) := by
  simp only [run_compression_simulation_step, brickRunState, Brick]
  rw [if_neg (by norm_num)]
  rw [if_neg (by norm_num; linarith)]
  rw [softened_stress, if_pos (by norm_num; linarith)]
  rw [if_pos (by nlinarith)]
  ext <;> simp [brickRunState, Brick, initial_platen_y, MACHINE_Y_BOTTOM,
    SCALE_FACTOR, PLATTEN_HEIGHT] <;> ring_nf
  norm_num

/-- A stepper call on the Brick run state past the safety margin finishes:
the termination branch fires, the flag is cleared, status becomes Finished
and the deformation is untouched. -/
lemma brick_finish (d : ℝ) (h : d ≥ 30) :
    run_compression_simulation_step (brickRunState d) =
      ({ brickRunState d with is_running := false, status := .Finished }, .finished) := by
  simp only [run_compression_simulation_step, brickRunState, Brick]
  rw [if_neg (by norm_num)]
  rw [if_pos (by norm_num; linarith)]
  rfl

/-- On the Brick run state the timer dispatches to the compression stepper. -/
lemma brick_dispatch (d : ℝ) :
    run_simulation_step (brickRunState d) = run_compression_simulation_step (brickRunState d) :=
  rfl

/-- `n` timer steps on the Brick run state advance the deformation by
`0.5 * n`, as long as the safety margin is not passed. -/
lemma brick_iter (n : ℕ) (d : ℝ) (h0 : 0 ≤ d) (h : d + 0.5 * n ≤ 30) :
    sim_steps n (brickRunState d) = brickRunState (d + 0.5 * n) := by
  induction n generalizing d with
  | zero => simp [sim_steps]
  | succ k ih =>
    have hk : (0.5 : ℝ) * (k + 1) = 0.5 * k + 0.5 := by ring
    rw [sim_steps, brick_dispatch,
      brick_step d h0 (by push_cast at h; linarith),
      ih (d + 0.5) (by linarith) (by push_cast at h ⊢; linarith)]
    congr 1
    push_cast
    ring

/-- Timer steps preserve reachability. -/
lemma sim_steps_reachable (n : ℕ) {s : Logic} (h : Reachable s) :
    Reachable (sim_steps n s) := by
  induction n generalizing s with
  | zero => exact h
  | succ k ih => exact ih (Reachable.timer h)

/-- The Brick run state at deformation `0.5` is reachable: drop Brick on the
fresh state and start the test. -/
lemma brick_reachable_start : Reachable (brickRunState 0.5) := by
  have h := Reachable.start (Reachable.material Brick (Or.inl rfl) Reachable.init)
  rwa [brick_start _ rfl rfl rfl] at h

/-- The Brick run state at the safety margin (deformation `30`) is
reachable. -/
lemma brick_reachable_30 : Reachable (brickRunState 30) := by
  have h := sim_steps_reachable 59 brick_reachable_start
  rw [brick_iter 59 0.5 (by norm_num) (by push_cast; norm_num)] at h
  have : (0.5 : ℝ) + 0.5 * (59 : ℕ) = 30 := by push_cast; norm_num
  rwa [this] at h

/-- The state of a finished Brick compression run. -/
def brickFinished : Logic :=
  { brickRunState 30 with is_running := false, status := .Finished }

/-- The finished Brick compression state is reachable. -/
lemma brick_finished_reachable : Reachable brickFinished := by
  have h := Reachable.timer brick_reachable_30
  rwa [brick_dispatch, brick_finish 30 (by norm_num)] at h

/-! ### The inductive invariant tying the status to the flag and the
termination bounds -/

/-- Inductive invariant of the reachable states: the running flag is only set
while the observable status is Running, and a Finished status is only reached
at or past the termination bound of the current test type. -/
def Inv (s : Logic) : Prop :=
  (s.is_running = true → s.status = .Running) ∧
  (s.status = .Finished → s.test_type = .Compression →
    s.current_deformation ≥ s.original_height - 10) ∧
  (s.status = .Finished → s.test_type = .Tensile →
    s.current_deformation ≥ s.original_height * 2) ∧
  (s.status = .Finished → s.selected_material_data.isSome = true)

/-- The compression stepper preserves the invariant (on compression-typed
states, which is how the timer invokes it). -/
lemma inv_comp_step {s : Logic} (ht : s.test_type = .Compression) (h : Inv s) :
    Inv (run_compression_simulation_step s).1 := by
  obtain ⟨h1, h2, h3, h4⟩ := h
  by_cases hr : s.is_running = false
  · rw [run_compression_simulation_step, if_pos hr]; exact ⟨h1, h2, h3, h4⟩
  · rw [run_compression_simulation_step, if_neg hr]
    have hrun : s.is_running = true := by simpa using hr
    have hst : s.status = .Running := h1 hrun
    cases hm : s.selected_material_data with
    | none => simp only [hm]; exact ⟨h1, h2, h3, h4⟩
    | some mat =>
      simp only [hm]
      by_cases hterm : s.current_deformation ≥ s.original_height - 10
      · rw [if_pos hterm]
        refine ⟨?_, ?_, ?_, ?_⟩
        · simp [stop_test]
        · intro _ _
          simpa [stop_test] using hterm
        · intro _ htt
          simp [stop_test, ht] at htt
        · intro _
          simp [stop_test, hm]
      · rw [if_neg hterm]
        refine ⟨?_, ?_, ?_, ?_⟩
        · intro _
          simpa using hst
        · intro hf
          simp [hst] at hf
        · intro hf
          simp [hst] at hf
        · intro hf
          simp [hst] at hf

/-- The tensile stepper preserves the invariant (on tensile-typed states). -/
lemma inv_tens_step {s : Logic} (ht : s.test_type = .Tensile) (h : Inv s) :
    Inv (run_tensile_simulation_step s).1 := by
  obtain ⟨h1, h2, h3, h4⟩ := h
  by_cases hr : s.is_running = false
  · rw [run_tensile_simulation_step, if_pos hr]; exact ⟨h1, h2, h3, h4⟩
  · rw [run_tensile_simulation_step, if_neg hr]
    have hrun : s.is_running = true := by simpa using hr
    have hst : s.status = .Running := h1 hrun
    cases hm : s.selected_material_data with
    | none => simp only [hm]; exact ⟨h1, h2, h3, h4⟩
    | some mat =>
      simp only [hm]
      by_cases hterm : s.current_deformation ≥ s.original_height * 2
      · rw [if_pos hterm]
        refine ⟨?_, ?_, ?_, ?_⟩
        · simp [stop_test]
        · intro _ htt
          simp [stop_test, ht] at htt
        · intro _ _
          simpa [stop_test] using hterm
        · intro _
          simp [stop_test, hm]
      · rw [if_neg hterm]
        refine ⟨?_, ?_, ?_, ?_⟩
        · intro _
          simpa using hst
        · intro hf
          simp [hst] at hf
        · intro hf
          simp [hst] at hf
        · intro hf
          simp [hst] at hf

/-- The timer step preserves the invariant. -/
lemma inv_sim_step {s : Logic} (h : Inv s) : Inv (run_simulation_step s).1 := by
  cases ht : s.test_type with
  | Compression => rw [run_simulation_step, ht]; exact inv_comp_step ht h
  | Tensile => rw [run_simulation_step, ht]; exact inv_tens_step ht h

/-- A state whose status is Running satisfies the invariant outright. -/
lemma inv_of_running {s : Logic} (h : s.status = .Running) : Inv s :=
  ⟨fun _ => h, fun hf => by simp [h] at hf, fun hf => by simp [h] at hf,
    fun hf => by simp [h] at hf⟩

/-- Every reachable state satisfies the invariant. -/
theorem reachable_inv {s : Logic} (h : Reachable s) : Inv s := by
  induction h with
  | init =>
    exact ⟨by simp [initLogic], by simp [initLogic], by simp [initLogic], by simp [initLogic]⟩
  | material m _ _ ih =>
    obtain ⟨h1, h2, h3, _⟩ := ih
    exact ⟨by simpa [set_material_data] using h1, by simpa [set_material_data] using h2,
      by simpa [set_material_data] using h3, by simp [set_material_data]⟩
  | setType t _ _ =>
    exact ⟨by simp [set_test_type, reset_state, stop_test],
      by simp [set_test_type, reset_state, stop_test],
      by simp [set_test_type, reset_state, stop_test],
      by simp [set_test_type, reset_state, stop_test]⟩
  | calibrate _ ih =>
    obtain ⟨h1, h2, h3, h4⟩ := ih
    rename_i s' _
    rw [calibrate_machine]
    cases hm : s'.selected_material_data with
    | none => exact ⟨h1, h2, h3, h4⟩
    | some mat =>
      cases ht : s'.test_type with
      | Compression =>
        simp only [hm, ht]
        exact ⟨by simpa using h1, by simpa [ht] using h2, by simp [ht], by simp [hm]⟩
      | Tensile =>
        simp only [hm, ht]
        exact ⟨by simpa using h1, by simp [ht], by simpa [ht] using h3, by simp [hm]⟩
  | start _ ih =>
    rename_i s' _
    rw [start_test]
    by_cases hg : (s'.is_running || s'.selected_material_data.isNone) = true
    · rw [if_pos hg]; exact ih
    · rw [if_neg hg]
      cases hm : s'.selected_material_data with
      | none => simp only [hm]; exact ih
      | some mat => simp only [hm]; exact inv_sim_step (inv_of_running rfl)
  | pause _ _ =>
    exact ⟨by simp [pause_test], by simp [pause_test], by simp [pause_test],
      by simp [pause_test]⟩
  | resume _ ih =>
    rename_i s' _
    rw [resume_test]
    by_cases hg : s'.is_running = true
    · rw [if_pos hg]; exact ih
    · rw [if_neg hg]; exact inv_sim_step (inv_of_running rfl)
  | stop _ ih =>
    obtain ⟨h1, h2, h3, h4⟩ := ih
    exact ⟨by simp [stop_test], by simpa [stop_test] using h2, by simpa [stop_test] using h3,
      by simpa [stop_test] using h4⟩
  | reset _ _ =>
    exact ⟨by simp [reset_state, stop_test], by simp [reset_state, stop_test],
      by simp [reset_state, stop_test], by simp [reset_state, stop_test]⟩
  | timer _ ih => exact inv_sim_step ih

/-! ### Peak tracking -/

/-- The compression stepper never decreases the peak force. -/
lemma comp_step_peak_mono (s : Logic) :
    (run_compression_simulation_step s).1.peak_force ≥ s.peak_force := by
  simp only [run_compression_simulation_step]
  by_cases hr : s.is_running = false
  · rw [if_pos hr]
  · rw [if_neg hr]
    cases hm : s.selected_material_data with
    | none => exact le_refl _
    | some mat =>
      simp only
      by_cases hterm : s.current_deformation ≥ s.original_height - 10
      · rw [if_pos hterm]
        exact le_refl _
      · rw [if_neg hterm]
        dsimp only
        split_ifs with hf
        · exact le_of_lt hf
        · exact le_refl _

/-- The tensile stepper never decreases the peak force. -/
lemma tens_step_peak_mono (s : Logic) :
    (run_tensile_simulation_step s).1.peak_force ≥ s.peak_force := by
  simp only [run_tensile_simulation_step]
  by_cases hr : s.is_running = false
  · rw [if_pos hr]
  · rw [if_neg hr]
    cases hm : s.selected_material_data with
    | none => exact le_refl _
    | some mat =>
      simp only
      by_cases hterm : s.current_deformation ≥ s.original_height * 2
      · rw [if_pos hterm]
        exact le_refl _
      · rw [if_neg hterm]
        dsimp only
        split_ifs with hf
        · exact le_of_lt hf
        · exact le_refl _

/-- A timer step never decreases the peak force. -/
lemma sim_step_peak_mono (s : Logic) :
    (run_simulation_step s).1.peak_force ≥ s.peak_force := by
  cases ht : s.test_type with
  | Compression => simp only [run_simulation_step, ht]; exact comp_step_peak_mono s
  | Tensile => simp only [run_simulation_step, ht]; exact tens_step_peak_mono s

/-- Any number of timer steps never decreases the peak force. -/
lemma sim_steps_peak_mono (n : ℕ) (s : Logic) :
    (sim_steps n s).peak_force ≥ s.peak_force := by
  induction n generalizing s with
  | zero => exact le_refl _
  | succ k ih => exact le_trans (sim_step_peak_mono s) (ih (run_simulation_step s).1)

/-- Peak coupling of the compression stepper: either both peak trackers are
untouched, or the peak force strictly increased to the just-computed force and
the peak stress was set to the just-computed (capped) stress. -/
lemma comp_step_peak_coupling (s : Logic) (m : MaterialData)
    (hm : s.selected_material_data = some m) :
    ((run_compression_simulation_step s).1.peak_force = s.peak_force ∧
      (run_compression_simulation_step s).1.peak_stress = s.peak_stress) ∨
    ((run_compression_simulation_step s).1.peak_force > s.peak_force ∧
      (run_compression_simulation_step s).1.peak_force =
        (run_compression_simulation_step s).1.current_force ∧
      (run_compression_simulation_step s).1.peak_stress =
        softened_stress m.sigma_y
          (m.E * 1000 * ((s.current_deformation + 0.5) / s.original_height))) := by
  simp only [run_compression_simulation_step, hm]
  by_cases hr : s.is_running = false
  · rw [if_pos hr]; exact Or.inl ⟨rfl, rfl⟩
  · rw [if_neg hr]
    by_cases hterm : s.current_deformation ≥ s.original_height - 10
    · rw [if_pos hterm]; exact Or.inl ⟨rfl, rfl⟩
    · rw [if_neg hterm]
      dsimp only
      split_ifs with hf
      · exact Or.inr ⟨hf, rfl, rfl⟩
      · exact Or.inl ⟨rfl, rfl⟩

/-- Peak coupling of the tensile stepper, as for compression. -/
lemma tens_step_peak_coupling (s : Logic) (m : MaterialData)
    (hm : s.selected_material_data = some m) :
    ((run_tensile_simulation_step s).1.peak_force = s.peak_force ∧
      (run_tensile_simulation_step s).1.peak_stress = s.peak_stress) ∨
    ((run_tensile_simulation_step s).1.peak_force > s.peak_force ∧
      (run_tensile_simulation_step s).1.peak_force =
        (run_tensile_simulation_step s).1.current_force ∧
      (run_tensile_simulation_step s).1.peak_stress =
        softened_stress m.sigma_y
          (m.E * 1000 * ((s.current_deformation + 0.5) / s.original_height))) := by
  simp only [run_tensile_simulation_step, hm]
  by_cases hr : s.is_running = false
  · rw [if_pos hr]; exact Or.inl ⟨rfl, rfl⟩
  · rw [if_neg hr]
    by_cases hterm : s.current_deformation ≥ s.original_height * 2
    · rw [if_pos hterm]; exact Or.inl ⟨rfl, rfl⟩
    · rw [if_neg hterm]
      dsimp only
      split_ifs with hf
      · exact Or.inr ⟨hf, rfl, rfl⟩
      · exact Or.inl ⟨rfl, rfl⟩

/-! ### Claim theorems -/

/-- Claim C2: for the material with `elasticModulus = 20`, `yieldStress = 5`
and dims `(80, 40, 40)` (Brick), the first compression step produces
deformation `0.5`, strain `0.0125`, uncapped stress `20 * 1000 * 0.0125 =
250`, capped stress `5 + 0.1 * (250 - 5) = 29.5`, and force
`29.5 * (80 * 40) = 94400`. -/
theorem C2_brick_first_step_values :
    (start_test (set_material_data initLogic Brick)).1.current_deformation = 0.5 ∧
    (start_test (set_material_data initLogic Brick)).1.current_deformation /
      (start_test (set_material_data initLogic Brick)).1.original_height = 0.0125 ∧
    Brick.E * 1000 * 0.0125 = 250 ∧
    softened_stress Brick.sigma_y 250 = 5 + 0.1 * (250 - 5) ∧
    softened_stress Brick.sigma_y 250 = 29.5 ∧
    (start_test (set_material_data initLogic Brick)).1.current_force = 29.5 * (80 * 40) ∧
    (start_test (set_material_data initLogic Brick)).1.current_force = 94400 := by
  rw [brick_start _ rfl rfl rfl]
  refine ⟨rfl, by norm_num [brickRunState], by norm_num [Brick], ?_, ?_, ?_, ?_⟩
  · rw [softened_stress, if_pos (by norm_num [Brick])]
    norm_num [Brick]
  · rw [softened_stress, if_pos (by norm_num [Brick])]
    norm_num [Brick]
  · norm_num [brickRunState]
  · norm_num [brickRunState]

/-- Claim C8: on every reachable state whose status is not Running (Idle,
Paused or Finished), invoking a stepper leaves the whole state unchanged and
produces no snapshot. -/
theorem C8_step_noop_when_not_running (s : Logic) (hs : Reachable s)
    (h : s.status ≠ .Running) :
    run_compression_simulation_step s = (s, .noop) ∧
    run_tensile_simulation_step s = (s, .noop) ∧
    run_simulation_step s = (s, .noop) := by
  have h1 := (reachable_inv hs).1
  have hr : s.is_running = false := by
    cases hrb : s.is_running
    · rfl
    · exact absurd (h1 hrb) h
  refine ⟨?_, ?_, ?_⟩
  · rw [run_compression_simulation_step, if_pos hr]
  · rw [run_tensile_simulation_step, if_pos hr]
  · cases ht : s.test_type with
    | Compression =>
      simp only [run_simulation_step, ht]
      rw [run_compression_simulation_step, if_pos hr]
    | Tensile =>
      simp only [run_simulation_step, ht]
      rw [run_tensile_simulation_step, if_pos hr]

/-- Witness for C8 at the (reachable, Idle) initial state. -/
theorem C8_witness :
    run_compression_simulation_step initLogic = (initLogic, .noop) ∧
    run_tensile_simulation_step initLogic = (initLogic, .noop) ∧
    run_simulation_step initLogic = (initLogic, .noop) :=
  C8_step_noop_when_not_running initLogic Reachable.init (by decide)

/-- Claim C9: resetting any session and then starting with a material
reproduces exactly the behaviour (state and first-step output) of a fresh
session of the same test kind started with that material. -/
theorem C9_reset_start_equals_fresh_start (s : Logic) (m : MaterialData) :
    start_test (set_material_data (reset_state s) m) =
      start_test (set_material_data (set_test_type initLogic s.test_type) m) := rfl

/-- Claim C5: on every executed step (compression or tensile), when the
uncapped linear stress `E * 1000 * strain` exceeds the yield stress, the
computed stress is exactly `sigma_y + 0.1 * (uncapped - sigma_y)`, otherwise
it is the uncapped value; and the force each stepper stores is built from
exactly that capped stress. -/
theorem C5_plastic_softening (s : Logic) (m : MaterialData) (sigma_y uncapped : ℝ)
    (hrun : s.is_running = true) (hm : s.selected_material_data = some m) :
    (uncapped > sigma_y →
      softened_stress sigma_y uncapped = sigma_y + 0.1 * (uncapped - sigma_y)) ∧
    (¬ uncapped > sigma_y → softened_stress sigma_y uncapped = uncapped) ∧
    (¬ s.current_deformation ≥ s.original_height - 10 →
      (run_compression_simulation_step s).1.current_force =
        softened_stress m.sigma_y
            (m.E * 1000 * ((s.current_deformation + 0.5) / s.original_height)) *
          (s.original_width * s.original_depth)) ∧
    (¬ s.current_deformation ≥ s.original_height * 2 →
      (run_tensile_simulation_step s).1.current_force =
        softened_stress m.sigma_y
            (m.E * 1000 * ((s.current_deformation + 0.5) / s.original_height)) *
          (s.original_width *
              Real.sqrt (s.original_height / (s.original_height + (s.current_deformation + 0.5))) *
            (s.original_depth *
              Real.sqrt (s.original_height / (s.original_height + (s.current_deformation + 0.5)))))) := by
  refine ⟨fun h => by rw [softened_stress, if_pos h],
    fun h => by rw [softened_stress, if_neg h], ?_, ?_⟩
  · intro hterm
    simp only [run_compression_simulation_step, hm, hrun]
    rw [if_neg (by norm_num), if_neg hterm]
  · intro hterm
    simp only [run_tensile_simulation_step, hm, hrun]
    rw [if_neg (by norm_num), if_neg hterm]

/-- Witness for C5 on the Brick run at deformation `0.5`: the capped stress
formula and the compression force it feeds. -/
theorem C5_witness :
    softened_stress 5 250 = 5 + 0.1 * (250 - 5) ∧
    (run_compression_simulation_step (brickRunState 0.5)).1.current_force =
      softened_stress Brick.sigma_y
          (Brick.E * 1000 * (((brickRunState 0.5).current_deformation + 0.5) /
            (brickRunState 0.5).original_height)) *
        ((brickRunState 0.5).original_width * (brickRunState 0.5).original_depth) :=
  ⟨(C5_plastic_softening (brickRunState 0.5) Brick 5 250 rfl rfl).1 (by norm_num),
    (C5_plastic_softening (brickRunState 0.5) Brick 5 250 rfl rfl).2.2.1
      (by norm_num [brickRunState])⟩

/-- Claim C6: on every non-terminal step, the compression force uses the
original undeformed cross-section `original_width * original_depth`, while the
tensile force uses the necked cross-section `new_width * new_depth` obtained
from the factor `sqrt (initialHeight / (initialHeight + deformation))`; the
necked area equals the original area scaled by
`initialHeight / (initialHeight + deformation)`. -/
theorem C6_force_cross_section_asymmetry (s : Logic) (m : MaterialData)
    (hrun : s.is_running = true) (hm : s.selected_material_data = some m)
    (hH : 0 < s.original_height) (hd : 0 ≤ s.current_deformation) :
    (¬ s.current_deformation ≥ s.original_height - 10 →
      (run_compression_simulation_step s).1.current_force =
        softened_stress m.sigma_y
            (m.E * 1000 * ((s.current_deformation + 0.5) / s.original_height)) *
          (s.original_width * s.original_depth)) ∧
    (¬ s.current_deformation ≥ s.original_height * 2 →
      (run_tensile_simulation_step s).1.current_force =
        softened_stress m.sigma_y
            (m.E * 1000 * ((s.current_deformation + 0.5) / s.original_height)) *
          (s.original_width *
              Real.sqrt (s.original_height / (s.original_height + (s.current_deformation + 0.5))) *
            (s.original_depth *
              Real.sqrt (s.original_height / (s.original_height + (s.current_deformation + 0.5)))))) ∧
    s.original_width *
        Real.sqrt (s.original_height / (s.original_height + (s.current_deformation + 0.5))) *
        (s.original_depth *
          Real.sqrt (s.original_height / (s.original_height + (s.current_deformation + 0.5)))) =
      s.original_width * s.original_depth *
        (s.original_height / (s.original_height + (s.current_deformation + 0.5))) := by
  have hq : 0 ≤ s.original_height / (s.original_height + (s.current_deformation + 0.5)) :=
    div_nonneg hH.le (by linarith)
  refine ⟨?_, ?_, ?_⟩
  · intro hterm
    simp only [run_compression_simulation_step, hm, hrun]
    rw [if_neg (by norm_num), if_neg hterm]
  · intro hterm
    simp only [run_tensile_simulation_step, hm, hrun]
    rw [if_neg (by norm_num), if_neg hterm]
  · rw [show s.original_width *
        Real.sqrt (s.original_height / (s.original_height + (s.current_deformation + 0.5))) *
        (s.original_depth *
          Real.sqrt (s.original_height / (s.original_height + (s.current_deformation + 0.5)))) =
      s.original_width * s.original_depth *
        (Real.sqrt (s.original_height / (s.original_height + (s.current_deformation + 0.5))) *
          Real.sqrt (s.original_height / (s.original_height + (s.current_deformation + 0.5))))
      from by ring]
    rw [Real.mul_self_sqrt hq]

/-- Witness for C6 on the Brick run at deformation `0.5`. -/
theorem C6_witness :
    (run_tensile_simulation_step (brickRunState 0.5)).1.current_force =
      softened_stress Brick.sigma_y
          (Brick.E * 1000 * (((brickRunState 0.5).current_deformation + 0.5) /
            (brickRunState 0.5).original_height)) *
        ((brickRunState 0.5).original_width *
            Real.sqrt ((brickRunState 0.5).original_height /
              ((brickRunState 0.5).original_height +
                ((brickRunState 0.5).current_deformation + 0.5))) *
          ((brickRunState 0.5).original_depth *
            Real.sqrt ((brickRunState 0.5).original_height /
              ((brickRunState 0.5).original_height +
                ((brickRunState 0.5).current_deformation + 0.5))))) :=
  (C6_force_cross_section_asymmetry (brickRunState 0.5) Brick rfl rfl
      (by norm_num [brickRunState]) (by norm_num [brickRunState])).2.1
    (by norm_num [brickRunState])

/-- Resuming never decreases the peak force. -/
lemma resume_peak_mono (s : Logic) : (resume_test s).1.peak_force ≥ s.peak_force := by
  rw [resume_test]
  by_cases hg : s.is_running = true
  · rw [if_pos hg]
  · rw [if_neg hg]
    exact sim_step_peak_mono _

/-- Claim C7: within a session, the peak force is non-decreasing under every
stepper invocation, any sequence of timer steps, pausing and resuming; and
whenever a stepper changes the peak trackers, the peak force was strictly
increased to the just-computed force with the peak stress set to the stress of
that same step (peak tracking is keyed on force). -/
theorem C7_peak_tracking (s : Logic) (m : MaterialData) (n : ℕ)
    (hm : s.selected_material_data = some m) :
    (run_compression_simulation_step s).1.peak_force ≥ s.peak_force ∧
    (run_tensile_simulation_step s).1.peak_force ≥ s.peak_force ∧
    (sim_steps n s).peak_force ≥ s.peak_force ∧
    (pause_test s).peak_force = s.peak_force ∧
    (resume_test s).1.peak_force ≥ s.peak_force ∧
    ((run_compression_simulation_step s).1.peak_force = s.peak_force ∧
        (run_compression_simulation_step s).1.peak_stress = s.peak_stress ∨
      (run_compression_simulation_step s).1.peak_force > s.peak_force ∧
        (run_compression_simulation_step s).1.peak_force =
          (run_compression_simulation_step s).1.current_force ∧
        (run_compression_simulation_step s).1.peak_stress =
          softened_stress m.sigma_y
            (m.E * 1000 * ((s.current_deformation + 0.5) / s.original_height))) ∧
    ((run_tensile_simulation_step s).1.peak_force = s.peak_force ∧
        (run_tensile_simulation_step s).1.peak_stress = s.peak_stress ∨
      (run_tensile_simulation_step s).1.peak_force > s.peak_force ∧
        (run_tensile_simulation_step s).1.peak_force =
          (run_tensile_simulation_step s).1.current_force ∧
        (run_tensile_simulation_step s).1.peak_stress =
          softened_stress m.sigma_y
            (m.E * 1000 * ((s.current_deformation + 0.5) / s.original_height))) :=
  ⟨comp_step_peak_mono s, tens_step_peak_mono s, sim_steps_peak_mono n s,
    rfl, resume_peak_mono s, comp_step_peak_coupling s m hm, tens_step_peak_coupling s m hm⟩

/-- Witness for C7 on the Brick run at deformation `0.5` with two further
timer steps. -/
theorem C7_witness :
    (sim_steps 2 (brickRunState 0.5)).peak_force ≥ (brickRunState 0.5).peak_force ∧
    (run_compression_simulation_step (brickRunState 0.5)).1.peak_force ≥
      (brickRunState 0.5).peak_force :=
  ⟨(C7_peak_tracking (brickRunState 0.5) Brick 2 rfl).2.2.1,
    (C7_peak_tracking (brickRunState 0.5) Brick 2 rfl).1⟩

/-- Claim C10: on every step that executes an increment (running, material
selected, termination check false), the post-increment height exceeds `9.5`,
so the degenerate branch `new_height ≤ 0` (which would scale width and depth
by `1.5`) is not taken: the emitted geometry always uses the square-root
bulging factor. -/
theorem C10_degenerate_geometry_unreachable (s : Logic) (m : MaterialData)
    (hrun : s.is_running = true) (hm : s.selected_material_data = some m)
    (hterm : ¬ s.current_deformation ≥ s.original_height - 10) :
    s.original_height - (s.current_deformation + 0.5) > 9.5 ∧
    (∃ u, (run_compression_simulation_step s).2 = .snapshot u ∧
      u.material_height = (s.original_height - (s.current_deformation + 0.5)) * SCALE_FACTOR ∧
      u.material_width = s.original_width *
          Real.sqrt (s.original_height / (s.original_height - (s.current_deformation + 0.5))) *
        SCALE_FACTOR ∧
      u.material_depth = s.original_depth *
          Real.sqrt (s.original_height / (s.original_height - (s.current_deformation + 0.5))) *
        SCALE_FACTOR) := by
  have h95 : s.original_height - (s.current_deformation + 0.5) > 9.5 := by
    push_neg at hterm
    linarith
  have hgeo : s.original_height - (s.current_deformation + 0.5) > 0 := by linarith
  refine ⟨h95, ?_⟩
  simp only [run_compression_simulation_step, hm, hrun]
  rw [if_neg (by norm_num), if_neg hterm, if_pos hgeo]
  exact ⟨_, rfl, rfl, rfl, rfl⟩

/-- Witness for C10 on the Brick run at deformation `0.5`. -/
theorem C10_witness :
    (brickRunState 0.5).original_height -
        ((brickRunState 0.5).current_deformation + 0.5) > 9.5 ∧
    (∃ u, (run_compression_simulation_step (brickRunState 0.5)).2 = .snapshot u ∧
      u.material_height = ((brickRunState 0.5).original_height -
          ((brickRunState 0.5).current_deformation + 0.5)) * SCALE_FACTOR ∧
      u.material_width = (brickRunState 0.5).original_width *
          Real.sqrt ((brickRunState 0.5).original_height /
            ((brickRunState 0.5).original_height -
              ((brickRunState 0.5).current_deformation + 0.5))) * SCALE_FACTOR ∧
      u.material_depth = (brickRunState 0.5).original_depth *
          Real.sqrt ((brickRunState 0.5).original_height /
            ((brickRunState 0.5).original_height -
              ((brickRunState 0.5).current_deformation + 0.5))) * SCALE_FACTOR) :=
  C10_degenerate_geometry_unreachable (brickRunState 0.5) Brick rfl rfl
    (by norm_num [brickRunState])

/-- Claim C1 (amended): a running compression step emits completion exactly
when `deformation ≥ initialHeight - 10` holds before any increment; completion
sets the status to Finished without touching the deformation; and every
emitted snapshot reports a height strictly greater than `9.5` length units
(i.e. `9.5 * SCALE_FACTOR` after display scaling). -/
theorem C1_compression_termination (s : Logic) (m : MaterialData)
    (hrun : s.is_running = true) (hm : s.selected_material_data = some m)
    (_hH : 0 < s.original_height) :
    ((run_compression_simulation_step s).2 = .finished ↔
      s.current_deformation ≥ s.original_height - 10) ∧
    ((run_compression_simulation_step s).2 = .finished →
      (run_compression_simulation_step s).1.status = .Finished ∧
      (run_compression_simulation_step s).1.current_deformation = s.current_deformation) ∧
    (∀ u, (run_compression_simulation_step s).2 = .snapshot u →
      u.material_height > 9.5 * SCALE_FACTOR) := by
  simp only [run_compression_simulation_step, hm, hrun]
  rw [if_neg (by norm_num)]
  by_cases hterm : s.current_deformation ≥ s.original_height - 10
  · rw [if_pos hterm]
    refine ⟨by simp [hterm], fun _ => ⟨rfl, rfl⟩, fun u hu => ?_⟩
    exact StepResult.noConfusion hu
  · rw [if_neg hterm]
    by_cases hgeo : s.original_height - (s.current_deformation + 0.5) > 0
    · rw [if_pos hgeo]
      refine ⟨⟨fun hu => StepResult.noConfusion hu, fun hd => absurd hd hterm⟩,
        fun hu => StepResult.noConfusion hu, fun u hu => ?_⟩
      cases hu
      push_neg at hterm
      rw [SCALE_FACTOR]
      dsimp only
      linarith
    · rw [if_neg hgeo]
      refine ⟨⟨fun hu => StepResult.noConfusion hu, fun hd => absurd hd hterm⟩,
        fun hu => StepResult.noConfusion hu, fun u hu => ?_⟩
      cases hu
      push_neg at hterm
      rw [SCALE_FACTOR]
      dsimp only
      linarith

/-- Witness for C1: the Brick run at the margin emits completion; the Brick
run below the margin emits a snapshot whose reported height is above the
bound. -/
theorem C1_witness :
    ((run_compression_simulation_step (brickRunState 30)).2 = .finished ↔
      (brickRunState 30).current_deformation ≥ (brickRunState 30).original_height - 10) ∧
    (∀ u, (run_compression_simulation_step (brickRunState 0.5)).2 = .snapshot u →
      u.material_height > 9.5 * SCALE_FACTOR) :=
  ⟨(C1_compression_termination (brickRunState 30) Brick rfl rfl
      (by norm_num [brickRunState])).1,
    (C1_compression_termination (brickRunState 0.5) Brick rfl rfl
      (by norm_num [brickRunState])).2.2⟩

/-- The Brick run state at deformation `0.5 + 0.5 * n` is reachable for
`n ≤ 59`. -/
lemma brick_reachable_d (n : ℕ) (hn : n ≤ 59) :
    Reachable (brickRunState (0.5 + 0.5 * n)) := by
  have hc : ((n : ℝ)) ≤ 59 := by exact_mod_cast hn
  have h := sim_steps_reachable n brick_reachable_start
  rwa [brick_iter n 0.5 (by norm_num) (by linarith)] at h

/-- The Brick run state at deformation `29.5` (one increment before the
margin) is reachable. -/
lemma brick_reachable_295 : Reachable (brickRunState 29.5) := by
  have h := brick_reachable_d 58 (by norm_num)
  have he : (0.5 : ℝ) + 0.5 * (58 : ℕ) = 29.5 := by push_cast; norm_num
  rwa [he] at h

/-- Counterexample to C1 as stated: on the reachable Brick session one
increment before the margin, the stepper emits the final snapshot with
reported height exactly `10 * SCALE_FACTOR` — an unscaled height of exactly
`10`, not `> 10` — and the next call terminates. -/
theorem C1_counterexample :
    Reachable (brickRunState 29.5) ∧
    (brickRunState 29.5).original_height = 40 ∧
    (run_compression_simulation_step (brickRunState 29.5)).2 =
      .snapshot ⟨10 * SCALE_FACTOR, 160 * SCALE_FACTOR, 80 * SCALE_FACTOR, 1140,
        4814400, 1504.5, .Compression⟩ ∧
    (run_compression_simulation_step (brickRunState 29.5)).1 = brickRunState 30 ∧
    (run_compression_simulation_step (brickRunState 30)).2 = .finished ∧
    ¬ ((10 : ℝ) > 10) := by
  have hs4 : Real.sqrt (4 : ℝ) = 2 := by
    rw [show (4 : ℝ) = 2 ^ 2 by norm_num, Real.sqrt_sq (by norm_num)]
  refine ⟨brick_reachable_295, rfl, ?_, ?_, ?_, by norm_num⟩
  · simp only [run_compression_simulation_step, brickRunState, Brick]
    rw [if_neg (by simp), if_neg (by norm_num)]
    norm_num [softened_stress, hs4, SCALE_FACTOR, initial_platen_y, MACHINE_Y_BOTTOM,
      PLATTEN_HEIGHT, StepResult.snapshot.injEq, UpdateData.mk.injEq]
  · rw [brick_step 29.5 (by norm_num) (by norm_num)]
    norm_num
  · rw [brick_finish 30 (by norm_num)]

/-- Claim C3 (amended): `start` is silently rejected (state unchanged, no
derived quantity reset) exactly while the running flag is set or no material
is selected; from any non-running state with a material — Idle or Paused
alike — it succeeds: the derived quantities are reset to zero, the material
dimensions are (re)loaded, the status becomes Running and the first step
runs. -/
theorem C3_start_guard (s : Logic) (m : MaterialData) :
    (s.is_running = true → start_test s = (s, .noop)) ∧
    (s.selected_material_data = none → start_test s = (s, .noop)) ∧
    (s.is_running = false → s.selected_material_data = some m →
      start_test s = run_simulation_step
        { s with
            is_running := true
            status := .Running
            original_height := m.dims1
            original_width := m.dims0
            original_depth := m.dims2
            current_deformation := 0
            current_force := 0
            peak_force := 0
            peak_stress := 0 }) := by
  refine ⟨?_, ?_, ?_⟩
  · intro h
    rw [start_test, if_pos (by simp [h])]
  · intro h
    rw [start_test, if_pos (by simp [h])]
  · intro h1 h2
    rw [start_test, if_neg (by simp [h1, h2])]
    simp only [h2]

/-- Witness for C3: rejection on the running Brick state, success from the
paused Brick state. -/
theorem C3_witness :
    start_test (brickRunState 0.5) = (brickRunState 0.5, .noop) ∧
    start_test (pause_test (brickRunState 1)) = run_simulation_step
      { pause_test (brickRunState 1) with
          is_running := true
          status := .Running
          original_height := Brick.dims1
          original_width := Brick.dims0
          original_depth := Brick.dims2
          current_deformation := 0
          current_force := 0
          peak_force := 0
          peak_stress := 0 } :=
  ⟨(C3_start_guard (brickRunState 0.5) Brick).1 rfl,
    (C3_start_guard (pause_test (brickRunState 1)) Brick).2.2 rfl rfl⟩

/-- Counterexample to C3 as stated: the reachable paused Brick session (status
Paused, not Idle) does not reject `start`; the call resets the derived
quantities (deformation drops from `1` back through `0` to the fresh first
increment `0.5`) and the status becomes Running. -/
theorem C3_counterexample :
    Reachable (pause_test (brickRunState 1)) ∧
    (pause_test (brickRunState 1)).status = .Paused ∧
    (pause_test (brickRunState 1)).current_deformation = 1 ∧
    (start_test (pause_test (brickRunState 1))).1 = brickRunState 0.5 ∧
    (start_test (pause_test (brickRunState 1))).1.status = .Running ∧
    (start_test (pause_test (brickRunState 1))).1.current_deformation = 0.5 ∧
    (1 : ℝ) ≠ 0.5 := by
  have he : (start_test (pause_test (brickRunState 1))).1 = brickRunState 0.5 :=
    brick_start _ rfl rfl rfl
  have hr : Reachable (brickRunState 1) := by
    have h := brick_reachable_d 1 (by norm_num)
    have h1 : (0.5 : ℝ) + 0.5 * (1 : ℕ) = 1 := by push_cast; norm_num
    rwa [h1] at h
  exact ⟨Reachable.pause hr, rfl, rfl, he, by rw [he]; rfl, by rw [he]; rfl, by norm_num⟩

/-- Claim C4 (amended): once the status is Finished, the steppers are no-ops
and `resume` merely re-emits completion with the state unchanged, so neither
`step` nor `resume` can advance the deformation; `start`, however, begins a
fresh run. -/
theorem C4_finished_blocks_stepping (s : Logic) (hs : Reachable s)
    (hf : s.status = .Finished) :
    run_compression_simulation_step s = (s, .noop) ∧
    run_tensile_simulation_step s = (s, .noop) ∧
    run_simulation_step s = (s, .noop) ∧
    resume_test s = (s, .finished) := by
  obtain ⟨h1, h2, h3, h4⟩ := reachable_inv hs
  have hr : s.is_running = false := by
    cases hrb : s.is_running
    · rfl
    · rw [h1 hrb] at hf
      simp at hf
  have hcomp : run_compression_simulation_step s = (s, .noop) := by
    rw [run_compression_simulation_step, if_pos hr]
  have htens : run_tensile_simulation_step s = (s, .noop) := by
    rw [run_tensile_simulation_step, if_pos hr]
  obtain ⟨m, hm⟩ : ∃ m, s.selected_material_data = some m := by
    cases hmo : s.selected_material_data with
    | none =>
      have := h4 hf
      rw [hmo] at this
      simp at this
    | some mat => exact ⟨mat, rfl⟩
  refine ⟨hcomp, htens, ?_, ?_⟩
  · cases ht : s.test_type with
    | Compression => simp only [run_simulation_step, ht]; exact hcomp
    | Tensile => simp only [run_simulation_step, ht]; exact htens
  · rw [resume_test, if_neg (by simp [hr])]
    cases ht : s.test_type with
    | Compression =>
      simp only [run_simulation_step, ht]
      rw [run_compression_simulation_step, if_neg (by simp)]
      simp only [hm]
      rw [if_pos (h2 hf ht)]
      rw [Prod.mk.injEq]
      refine ⟨?_, rfl⟩
      ext <;> simp [stop_test, hr, hf, hm, ht]
    | Tensile =>
      simp only [run_simulation_step, ht]
      rw [run_tensile_simulation_step, if_neg (by simp)]
      simp only [hm]
      rw [if_pos (h3 hf ht)]
      rw [Prod.mk.injEq]
      refine ⟨?_, rfl⟩
      ext <;> simp [stop_test, hr, hf, hm, ht]

/-- Witness for C4 at the reachable finished Brick session. -/
theorem C4_witness :
    run_compression_simulation_step brickFinished = (brickFinished, .noop) ∧
    run_tensile_simulation_step brickFinished = (brickFinished, .noop) ∧
    run_simulation_step brickFinished = (brickFinished, .noop) ∧
    resume_test brickFinished = (brickFinished, .finished) :=
  C4_finished_blocks_stepping brickFinished brick_finished_reachable rfl

/-- Counterexample to C4 as stated: on the reachable finished Brick session,
`start` succeeds without any new session being created — it resets the
deformation and stepping resumes (the deformation advances to `0.5` and then
to `1`). -/
theorem C4_counterexample :
    Reachable brickFinished ∧
    brickFinished.status = .Finished ∧
    brickFinished.current_deformation = 30 ∧
    (start_test brickFinished).1 = brickRunState 0.5 ∧
    (start_test brickFinished).1.status = .Running ∧
    (run_compression_simulation_step (start_test brickFinished).1).1.current_deformation
      = 1 := by
  have he : (start_test brickFinished).1 = brickRunState 0.5 := brick_start _ rfl rfl rfl
  refine ⟨brick_finished_reachable, rfl, rfl, he, by rw [he]; rfl, ?_⟩
  rw [he, brick_step 0.5 (by norm_num) (by norm_num)]
  norm_num [brickRunState]

end Simulators
